import Mathlib

/-!
Verification of the `hugging_py_face` NLP client
(`src/hugging_py_face/nlp.py`) against its specification.

The embedding models Python JSON values as the inductive `JsonVal`,
Python dicts as insertion-ordered association lists, and the HTTP
boundary as a pure oracle `net : HttpRequest → HttpResponse`.  Each
method of the `NLP` class is translated statement by statement; the
list of `HttpRequest`s a call emits is returned alongside its result
so that claims about "no request sent" are expressible.
-/

/-- A JSON value as handled by Python's `json` module (numbers are
restricted to integers, which suffice for the payloads modelled here). -/
inductive JsonVal where
  | str : String → JsonVal
  | num : Int → JsonVal
  | bool : Bool → JsonVal
  | null : JsonVal
  | arr : List JsonVal → JsonVal
  | obj : List (String × JsonVal) → JsonVal
deriving Repr

/-- A Python dict with JSON values: an insertion-ordered association list. -/
abbrev JDict := List (String × JsonVal)

/-- Python dict assignment `d[k] = v`: overwrite in place if the key exists
(keeping its position), otherwise append at the end. -/
def assocSet {α : Type} (d : List (String × α)) (k : String) (v : α) : List (String × α) :=
  if d.any (fun kv => kv.1 = k) then
    d.map (fun kv => if kv.1 = k then (k, v) else kv)
  else d ++ [(k, v)]

/-- JSON string escaping as done by `json.dumps` for the characters the
model can produce. -/
def escChars : List Char → List Char
  | [] => []
  | c :: cs =>
    if c = '"' then '\\' :: '"' :: escChars cs
    else if c = '\\' then '\\' :: '\\' :: escChars cs
    else if c = '\n' then '\\' :: 'n' :: escChars cs
    else if c = '\t' then '\\' :: 't' :: escChars cs
    else if c = '\r' then '\\' :: 'r' :: escChars cs
    else c :: escChars cs

/-- Serialize a string with surrounding quotes, as `json.dumps` does. -/
def jstr (s : String) : String :=
  "\"" ++ String.mk (escChars s.toList) ++ "\""

mutual

/-- Serialization as `json.dumps` does it, with the default separators (`", "` and `": "`). -/
def JsonVal.dumps : JsonVal → String
  | .str s => jstr s
  | .num n => toString n
  | .bool b => if b then "true" else "false"
  | .null => "null"
  | .arr xs => "[" ++ dumpsArr xs ++ "]"
  | .obj kvs => "\x7b" ++ dumpsObj kvs ++ "\x7d"

/-- Comma-separated serialization of array elements. -/
def dumpsArr : List JsonVal → String
  | [] => ""
  | [x] => JsonVal.dumps x
  | x :: y :: xs => JsonVal.dumps x ++ ", " ++ dumpsArr (y :: xs)

/-- Comma-separated serialization of object entries. -/
def dumpsObj : List (String × JsonVal) → String
  | [] => ""
  | [(k, v)] => jstr k ++ ": " ++ JsonVal.dumps v
  | (k, v) :: kv :: kvs => jstr k ++ ": " ++ JsonVal.dumps v ++ ", " ++ dumpsObj (kv :: kvs)

end

/-- The configuration dict produced by `ConfigParser().get_config_dict()`:
a base URL and the task-to-default-model map. -/
structure Config where
  BASE_URL : String
  TASK_MODEL_MAP : List (String × String)
deriving DecidableEq, Repr

/-- The `NLP` client object: an API token and the configuration loaded at
construction. -/
structure NLP where
  api_token : String
  config : Config
deriving DecidableEq, Repr

/-- An HTTP request as assembled by `requests.request("POST", api_url,
headers=headers, data=json.dumps(data))`. -/
structure HttpRequest where
  method : String
  url : String
  headers : List (String × String)
  body : String
deriving DecidableEq, Repr

/-- An HTTP response: a status code and the decoded body text. -/
structure HttpResponse where
  status : Nat
  content : String
deriving DecidableEq, Repr

/-- The Python exceptions the translated code can raise. -/
inductive PyError where
  | keyError (k : String)
  | indexError
  | typeError
  | jsonDecodeError
deriving DecidableEq, Repr

/-- The network boundary: a pure oracle mapping each request to a response. -/
abbrev Net := HttpRequest → HttpResponse

/-- Skip JSON whitespace. -/
def skipWs : List Char → List Char
  | [] => []
  | c :: cs =>
    if c = ' ' ∨ c = '\n' ∨ c = '\t' ∨ c = '\r' then skipWs cs else c :: cs

/-- Translate one JSON escape character (self-representing characters
first, then the letter escapes). -/
def unescChar (e : Char) : Option Char :=
  if e = '"' ∨ e = '\\' ∨ e = '/' then some e
  else if e = 'n' then some '\n'
  else if e = 't' then some '\t'
  else if e = 'r' then some '\r'
  else none

/-- Parse the remainder of a JSON string literal (opening quote already
consumed): the decoded characters and the unconsumed input. -/
def parseStringAux : List Char → Option (List Char × List Char)
  | [] => none
  | '"' :: rest => some ([], rest)
  | '\\' :: e :: rest =>
    match unescChar e with
    | none => none
    | some c =>
      match parseStringAux rest with
      | none => none
      | some (s, r) => some (c :: s, r)
  | c :: rest =>
    match parseStringAux rest with
    | none => none
    | some (s, r) => some (c :: s, r)

/-- Split a leading run of decimal digits off the input. -/
def spanDigits : List Char → List Char × List Char
  | [] => ([], [])
  | c :: cs =>
    if c.isDigit then
      let (d, r) := spanDigits cs
      (c :: d, r)
    else ([], c :: cs)

/-- Numeric value of a digit string. -/
def digitsToNat (ds : List Char) : Nat :=
  ds.foldl (fun acc c => acc * 10 + (c.toNat - Char.toNat '0')) 0

/-- Parse a JSON integer (an optional minus sign and digits). -/
def parseNum : List Char → Option (Int × List Char)
  | '-' :: cs =>
    match spanDigits cs with
    | ([], _) => none
    | (ds, r) => some (-(Int.ofNat (digitsToNat ds)), r)
  | cs =>
    match spanDigits cs with
    | ([], _) => none
    | (ds, r) => some (Int.ofNat (digitsToNat ds), r)

/-- Consume an expected literal character sequence. -/
def dropLit : List Char → List Char → Option (List Char)
  | [], cs => some cs
  | e :: es, c :: cs => if c = e then dropLit es cs else none
  | _ :: _, [] => none

mutual

/-- Fuel-bounded recursive-descent parse of one JSON value. -/
def parseValue : Nat → List Char → Option (JsonVal × List Char)
  | 0, _ => none
  | Nat.succ fuel, cs =>
    match skipWs cs with
    | '"' :: rest =>
      match parseStringAux rest with
      | none => none
      | some (s, r) => some (.str (String.mk s), r)
    | '[' :: rest =>
      match skipWs rest with
      | ']' :: r => some (.arr [], r)
      | rest2 =>
        match parseElems fuel rest2 with
        | none => none
        | some (xs, r) => some (.arr xs, r)
    | '\x7b' :: rest =>
      match skipWs rest with
      | '\x7d' :: r => some (.obj [], r)
      | rest2 =>
        match parseFields fuel rest2 with
        | none => none
        | some (kvs, r) => some (.obj kvs, r)
    | 't' :: rest => (dropLit ['r', 'u', 'e'] rest).map (fun r => (.bool true, r))
    | 'f' :: rest => (dropLit ['a', 'l', 's', 'e'] rest).map (fun r => (.bool false, r))
    | 'n' :: rest => (dropLit ['u', 'l', 'l'] rest).map (fun r => (.null, r))
    | cs2 =>
      match parseNum cs2 with
      | none => none
      | some (n, r) => some (.num n, r)

/-- Parse one or more comma-separated array elements and the closing
bracket. -/
def parseElems : Nat → List Char → Option (List JsonVal × List Char)
  | 0, _ => none
  | Nat.succ fuel, cs =>
    match parseValue fuel cs with
    | none => none
    | some (v, r) =>
      match skipWs r with
      | ',' :: r2 =>
        match parseElems fuel r2 with
        | none => none
        | some (vs, r3) => some (v :: vs, r3)
      | ']' :: r2 => some ([v], r2)
      | _ => none

/-- Parse one or more comma-separated object fields and the closing
brace. -/
def parseFields : Nat → List Char → Option (List (String × JsonVal) × List Char)
  | 0, _ => none
  | Nat.succ fuel, cs =>
    match skipWs cs with
    | '"' :: rest =>
      match parseStringAux rest with
      | none => none
      | some (k, r) =>
        match skipWs r with
        | ':' :: r2 =>
          match parseValue fuel r2 with
          | none => none
          | some (v, r3) =>
            match skipWs r3 with
            | ',' :: r4 =>
              match parseFields fuel r4 with
              | none => none
              | some (kvs, r5) => some ((String.mk k, v) :: kvs, r5)
            | '\x7d' :: r4 => some ([(String.mk k, v)], r4)
            | _ => none
        | _ => none
    | _ => none

end

/-- Model of `json.loads`: parse a complete JSON document, allowing surrounding
whitespace and rejecting trailing input. -/
def json_loads (s : String) : Option JsonVal :=
  match parseValue (2 * s.length + 2) s.toList with
  | none => none
  | some (v, r) => if skipWs r = [] then some v else none

/-- Line 17 of `nlp.py`: the f-string
`f"{self.config['BASE_URL']}/{model if model is not None else self.config['TASK_MODEL_MAP'][task]}"`.
A non-`None` `model` is used verbatim (the code tests only `is not None`);
otherwise `TASK_MODEL_MAP[task]` is looked up, raising `KeyError` when
`task` is `None` or not a key of the map. -/
def NLP.resolveUrl (self : NLP) (model : Option String) (task : Option String) : Except PyError String :=
  match model with
  | some m => .ok (self.config.BASE_URL ++ "/" ++ m)
  | none =>
    match task with
    | none => .error (.keyError "None")
    | some t =>
      match self.config.TASK_MODEL_MAP.lookup t with
      | none => .error (.keyError t)
      | some m => .ok (self.config.BASE_URL ++ "/" ++ m)

/-- Model of `NLP._query` (lines 16-34): resolve the URL, build the headers and
the body dict, send one POST via `net`, and `json.loads` the response
body.  The first component is the list of requests actually sent, so
that failure before dispatch is observable. -/
def NLP.query (self : NLP) (inputs : JsonVal) (parameters : Option JDict) (options : Option JDict) (model : Option String) (task : Option String) (net : Net) : List HttpRequest × Except PyError JsonVal :=
  match self.resolveUrl model task with
  | .error e => ([], .error e)
  | .ok api_url =>
    let headers : List (String × String) := [("Authorization", "Bearer " ++ self.api_token)]
    let data : JDict := [("inputs", inputs)]
    let data : JDict :=
      match parameters with
      | some p => assocSet data "parameters" (.obj p)
      | none => data
    let data : JDict :=
      match options with
      | some o => assocSet data "options" (.obj o)
      | none => data
    let req : HttpRequest := ⟨"POST", api_url, headers, (JsonVal.obj data).dumps⟩
    let response := net req
    match json_loads response.content with
    | some v => ([req], .ok v)
    | none => ([req], .error .jsonDecodeError)

/-- A pandas DataFrame restricted to what the code touches: named
columns of JSON values; column assignment overwrites in place. -/
structure DataFrame where
  cols : List (String × List JsonVal)
deriving Repr

/-- Column assignment `df['predictions'] = vals`. -/
def DataFrame.setCol (df : DataFrame) (name : String) (vals : List JsonVal) : DataFrame :=
  ⟨assocSet df.cols name vals⟩

/-- Model of `NLP._query_in_df` (lines 36-37): `df[column].tolist()` (raising
`KeyError` for a missing column) passed on to `_query`. -/
def NLP.query_in_df (self : NLP) (df : DataFrame) (column : String) (parameters : Option JDict) (options : Option JDict) (model : Option String) (task : Option String) (net : Net) : List HttpRequest × Except PyError JsonVal :=
  match df.cols.lookup column with
  | none => ([], .error (.keyError column))
  | some vals => self.query (.arr vals) parameters options model task net

/-- Test `isinstance(x, list)` on a decoded JSON value. -/
def JsonVal.isList : JsonVal → Bool
  | .arr _ => true
  | _ => false

/-- Subscript `x[0]` where the code expects a decoded JSON list; other shapes
raise (the precise Python exception class is abstracted to
`typeError`). -/
def pyIndexZero : JsonVal → Except PyError JsonVal
  | .arr [] => .error .indexError
  | .arr (x :: _) => .ok x
  | _ => .error .typeError

/-- Subscript `x[k]` with a string key: dict lookup, raising `KeyError` when the
key is missing; non-dict shapes raise `TypeError`. -/
def pySubscript (x : JsonVal) (k : String) : Except PyError JsonVal :=
  match x with
  | .obj d =>
    match d.lookup k with
    | some v => .ok v
    | none => .error (.keyError k)
  | _ => .error .typeError

/-- A Python list comprehension `[f(x) for x in xs]`, stopping at the
first raised exception. -/
def mapPy (f : JsonVal → Except PyError JsonVal) : List JsonVal → Except PyError (List JsonVal)
  | [] => .ok []
  | x :: xs =>
    match f x with
    | .error e => .error e
    | .ok v =>
      match mapPy f xs with
      | .error e => .error e
      | .ok vs => .ok (v :: vs)

/-- Model of `NLP.fill_mask` (line 48). -/
def NLP.fill_mask (self : NLP) (text : JsonVal) (options : Option JDict) (model : Option String) (net : Net) : List HttpRequest × Except PyError JsonVal :=
  self.query text none options model (some "fill-mask") net

/-- Model of `NLP.fill_mask_in_df` (lines 60-67): if any response element is a
list, extract `prediction[0]['sequence']` per element; otherwise write
the single value `predictions[0]['sequence']`.  A response that is not
a decoded list errors in either branch (exception class abstracted). -/
def NLP.fill_mask_in_df (self : NLP) (df : DataFrame) (column : String) (options : Option JDict) (model : Option String) (net : Net) : List HttpRequest × Except PyError DataFrame :=
  match self.query_in_df df column none options model (some "fill-mask") net with
  | (tr, .error e) => (tr, .error e)
  | (tr, .ok predictions) =>
    match predictions with
    | .arr ps =>
      if ps.any JsonVal.isList then
        match mapPy (fun p => Except.bind (pyIndexZero p) (fun c => pySubscript c "sequence")) ps with
        | .error e => (tr, .error e)
        | .ok vals => (tr, .ok (df.setCol "predictions" vals))
      else
        match Except.bind (pyIndexZero (.arr ps)) (fun c => pySubscript c "sequence") with
        | .error e => (tr, .error e)
        | .ok v => (tr, .ok (df.setCol "predictions" [v]))
    | _ => (tr, .error .typeError)

/-- Model of `NLP.summarization` (line 79). -/
def NLP.summarization (self : NLP) (text : JsonVal) (parameters : Option JDict) (options : Option JDict) (model : Option String) (net : Net) : List HttpRequest × Except PyError JsonVal :=
  self.query text parameters options model (some "summarization") net

set_option linter.unusedVariables false in
/-- Model of `NLP.summarization_in_df` (lines 92-94).  Line 92 calls
`self._query_in_df(df, column, options=options, model=model,
task='summarization')`, leaving `parameters` at its default `None`:
the `parameters` argument of this method is never forwarded. -/
def NLP.summarization_in_df (self : NLP) (df : DataFrame) (column : String) (parameters : Option JDict) (options : Option JDict) (model : Option String) (net : Net) : List HttpRequest × Except PyError DataFrame :=
  match self.query_in_df df column none options model (some "summarization") net with
  | (tr, .error e) => (tr, .error e)
  | (tr, .ok predictions) =>
    match predictions with
    | .arr ps =>
      match mapPy (fun p => pySubscript p "summary_text") ps with
      | .error e => (tr, .error e)
      | .ok vals => (tr, .ok (df.setCol "predictions" vals))
    | _ => (tr, .error .typeError)

/-- Model of `NLP.question_answering` (lines 107-114). -/
def NLP.question_answering (self : NLP) (question : String) (context : String) (model : Option String) (net : Net) : List HttpRequest × Except PyError JsonVal :=
  self.query (.obj [("question", .str question), ("context", .str context)]) none none model (some "question-answering") net

/-- Model of `NLP.sentence_similarity` (lines 126-134). -/
def NLP.sentence_similarity (self : NLP) (source_sentence : String) (sentences : List JsonVal) (options : Option JDict) (model : Option String) (net : Net) : List HttpRequest × Except PyError JsonVal :=
  self.query (.obj [("source_sentence", .str source_sentence), ("sentences", .arr sentences)]) none options model (some "sentence-similarity") net

/-- Model of `NLP.text_classification` (line 145). -/
def NLP.text_classification (self : NLP) (text : JsonVal) (options : Option JDict) (model : Option String) (net : Net) : List HttpRequest × Except PyError JsonVal :=
  self.query text none options model (some "text-classification") net

/-- Model of `NLP.text_classification_in_df` (lines 157-159): extract
`prediction[0]['label']` per response element. -/
def NLP.text_classification_in_df (self : NLP) (df : DataFrame) (column : String) (options : Option JDict) (model : Option String) (net : Net) : List HttpRequest × Except PyError DataFrame :=
  match self.query_in_df df column none options model (some "text-classification") net with
  | (tr, .error e) => (tr, .error e)
  | (tr, .ok predictions) =>
    match predictions with
    | .arr ps =>
      match mapPy (fun p => Except.bind (pyIndexZero p) (fun c => pySubscript c "label")) ps with
      | .error e => (tr, .error e)
      | .ok vals => (tr, .ok (df.setCol "predictions" vals))
    | _ => (tr, .error .typeError)

/-- Model of `NLP.text_generation` (line 171). -/
def NLP.text_generation (self : NLP) (text : JsonVal) (parameters : Option JDict) (options : Option JDict) (model : Option String) (net : Net) : List HttpRequest × Except PyError JsonVal :=
  self.query text parameters options model (some "text-generation") net

/-- How the `parameters` argument of `zero_shot_classification` is
supplied at a call site: omitted (Python then uses the function's
mutable default dict, shared across calls), explicitly `None`, or an
explicit dict. -/
inductive ParamArg where
  | omitted
  | noneArg
  | given (d : JDict)

/-- The shared default dict of `zero_shot_classification`
(`parameters: Optional[Dict] = {}` on line 173): created empty once at
function definition time and mutated by calls that omit the argument. -/
structure ZsDefault where
  val : JDict
deriving Repr

/-- The dict the default starts as, at function definition time. -/
def ZsDefault.initial : ZsDefault := ⟨[]⟩

/-- Everything observable about one `zero_shot_classification` call:
the post-call value of the shared default dict, the post-call value of
the caller's dict when one was passed, the requests sent, and the
returned value. -/
structure ZsOutcome where
  zsDefault : ZsDefault
  callerParams : Option JDict
  trace : List HttpRequest
  result : Except PyError JsonVal

/-- Model of `NLP.zero_shot_classification` (lines 173-192): line 184 executes
`parameters['candidate_labels'] = candidate_labels`, mutating whichever
dict `parameters` is bound to — the caller's dict, or the shared
default when the argument was omitted; an explicit `None` raises
`TypeError` there, before any request is built or sent. -/
def NLP.zero_shot_classification (self : NLP) (text : JsonVal) (candidate_labels : List JsonVal) (arg : ParamArg) (options : Option JDict) (model : Option String) (st : ZsDefault) (net : Net) : ZsOutcome :=
  match arg with
  | .noneArg => ⟨st, none, [], .error .typeError⟩
  | .given d =>
    let d2 := assocSet d "candidate_labels" (.arr candidate_labels)
    let (tr, r) := self.query text (some d2) options model (some "zero-shot-classification") net
    ⟨st, some d2, tr, r⟩
  | .omitted =>
    let d2 := assocSet st.val "candidate_labels" (.arr candidate_labels)
    let (tr, r) := self.query text (some d2) options model (some "zero-shot-classification") net
    ⟨⟨d2⟩, none, tr, r⟩

/-- Model of `NLP.conversational` (lines 206-222): the `inputs` dict holds
`text` and, only when supplied, `past_user_inputs` and
`generated_responses`. -/
def NLP.conversational (self : NLP) (text : JsonVal) (past_user_inputs : Option JsonVal) (generated_responses : Option JsonVal) (parameters : Option JDict) (options : Option JDict) (model : Option String) (net : Net) : List HttpRequest × Except PyError JsonVal :=
  let inputs : JDict := [("text", text)]
  let inputs : JDict :=
    match past_user_inputs with
    | some p => assocSet inputs "past_user_inputs" p
    | none => inputs
  let inputs : JDict :=
    match generated_responses with
    | some g => assocSet inputs "generated_responses" g
    | none => inputs
  self.query (.obj inputs) parameters options model (some "conversational") net

/-- Model of `NLP.feature_extraction` (line 233). -/
def NLP.feature_extraction (self : NLP) (text : JsonVal) (options : Option JDict) (model : Option String) (net : Net) : List HttpRequest × Except PyError JsonVal :=
  self.query text none options model (some "feature-extraction") net

/-- One call to any public task method or tabular adapter of the
client, with its call-site arguments. -/
inductive ApiCall where
  | fillMask (text : JsonVal) (options : Option JDict) (model : Option String)
  | fillMaskInDf (df : DataFrame) (column : String) (options : Option JDict) (model : Option String)
  | summarize (text : JsonVal) (parameters : Option JDict) (options : Option JDict) (model : Option String)
  | summarizeInDf (df : DataFrame) (column : String) (parameters : Option JDict) (options : Option JDict) (model : Option String)
  | questionAnswering (question : String) (context : String) (model : Option String)
  | sentenceSimilarity (source_sentence : String) (sentences : List JsonVal) (options : Option JDict) (model : Option String)
  | textClassification (text : JsonVal) (options : Option JDict) (model : Option String)
  | textClassificationInDf (df : DataFrame) (column : String) (options : Option JDict) (model : Option String)
  | textGeneration (text : JsonVal) (parameters : Option JDict) (options : Option JDict) (model : Option String)
  | zeroShot (text : JsonVal) (candidate_labels : List JsonVal) (arg : ParamArg) (options : Option JDict) (model : Option String)
  | conversationalCall (text : JsonVal) (past_user_inputs : Option JsonVal) (generated_responses : Option JsonVal) (parameters : Option JDict) (options : Option JDict) (model : Option String)
  | featureExtraction (text : JsonVal) (options : Option JDict) (model : Option String)

/-- The returned value of a call: parsed JSON for task methods, a
DataFrame for the tabular adapters. -/
inductive CallResult where
  | json (v : JsonVal)
  | frame (d : DataFrame)

/-- The mutable state a sequence of calls on one client can touch: the
client object's two fields, plus the shared default dict of
`zero_shot_classification`. -/
structure SessionState where
  client : NLP
  zsDefault : ZsDefault

/-- Lift a task-method result into a `CallResult`. -/
def liftJson (p : List HttpRequest × Except PyError JsonVal) : List HttpRequest × Except PyError CallResult :=
  (p.1, p.2.map .json)

/-- Lift a tabular-adapter result into a `CallResult`. -/
def liftFrame (p : List HttpRequest × Except PyError DataFrame) : List HttpRequest × Except PyError CallResult :=
  (p.1, p.2.map .frame)

/-- Execute one call against the session state. -/
def runCall (net : Net) (st : SessionState) : ApiCall → SessionState × List HttpRequest × Except PyError CallResult
  | .fillMask text options model => (st, liftJson (st.client.fill_mask text options model net))
  | .fillMaskInDf df column options model => (st, liftFrame (st.client.fill_mask_in_df df column options model net))
  | .summarize text parameters options model => (st, liftJson (st.client.summarization text parameters options model net))
  | .summarizeInDf df column parameters options model => (st, liftFrame (st.client.summarization_in_df df column parameters options model net))
  | .questionAnswering question context model => (st, liftJson (st.client.question_answering question context model net))
  | .sentenceSimilarity s ss options model => (st, liftJson (st.client.sentence_similarity s ss options model net))
  | .textClassification text options model => (st, liftJson (st.client.text_classification text options model net))
  | .textClassificationInDf df column options model => (st, liftFrame (st.client.text_classification_in_df df column options model net))
  | .textGeneration text parameters options model => (st, liftJson (st.client.text_generation text parameters options model net))
  | .zeroShot text labels arg options model =>
    let out := st.client.zero_shot_classification text labels arg options model st.zsDefault net
    (⟨st.client, out.zsDefault⟩, out.trace, out.result.map .json)
  | .conversationalCall text pui gr parameters options model => (st, liftJson (st.client.conversational text pui gr parameters options model net))
  | .featureExtraction text options model => (st, liftJson (st.client.feature_extraction text options model net))

/-- Execute a sequence of calls, threading the session state. -/
def runCalls (net : Net) (st : SessionState) : List ApiCall → SessionState
  | [] => st
  | c :: cs => runCalls net (runCall net st c).1 cs

/-- Statement shorthand: the body entry contributed by an optional
dict argument of `_query`. -/
def optEntry (k : String) : Option JDict → JDict
  | some d => [(k, JsonVal.obj d)]
  | none => []

/-- Statement shorthand: the body dict `_query` builds. -/
def specBody (inputs : JsonVal) (parameters options : Option JDict) : JDict :=
  [("inputs", inputs)] ++ optEntry "parameters" parameters ++ optEntry "options" options

/-- Statement shorthand: the request `_query` sends once the URL has
resolved to `url`. -/
def specRequest (c : NLP) (url : String) (inputs : JsonVal) (parameters options : Option JDict) : HttpRequest :=
  ⟨"POST", url, [("Authorization", "Bearer " ++ c.api_token)], (JsonVal.obj (specBody inputs parameters options)).dumps⟩

/-- A network oracle answering every request with the same response. -/
def constNet (status : Nat) (body : String) : Net := fun _ => ⟨status, body⟩

/-- Concrete client used by witnesses and counterexamples. -/
def testClient : NLP :=
  ⟨"tok", ⟨"https://api", [("fill-mask", "m1"), ("summarization", "m2"), ("zero-shot-classification", "m3")]⟩⟩

/-- Concrete single-column one-row DataFrame. -/
def testDf : DataFrame := ⟨[("col", [.str "text1"])]⟩

/-- Concrete single-column three-row DataFrame. -/
def testDf3 : DataFrame := ⟨[("col", [.str "a", .str "b", .str "c"])]⟩

/-- When the URL resolves, `_query` sends exactly the request built
from the envelope and returns the parse of the response to it. -/
theorem NLP.query_ok (c : NLP) (inputs : JsonVal) (parameters options : Option JDict)
    (model task : Option String) (net : Net) (url : String)
    (h : c.resolveUrl model task = .ok url) :
    c.query inputs parameters options model task net =
      ([specRequest c url inputs parameters options],
        match json_loads (net (specRequest c url inputs parameters options)).content with
        | some v => .ok v
        | none => .error .jsonDecodeError) := by
  cases parameters <;> cases options <;>
    (simp [NLP.query, h, specRequest, specBody, optEntry, assocSet]; split <;> rfl)

/-- Updating an absent key appends it. -/
theorem assocSet_of_not_mem {α : Type} (d : List (String × α)) (k : String) (v : α)
    (h : k ∉ d.map Prod.fst) : assocSet d k v = d ++ [(k, v)] := by
  have hany : (d.any fun kv => kv.1 = k) = false := by
    rw [List.any_eq_false]
    intro kv hkv
    simp only [decide_eq_true_eq]
    intro he
    exact h (he ▸ List.mem_map_of_mem Prod.fst hkv)
  simp [assocSet, hany]

/-- After `d[k] = v`, looking up `k` yields `v`. -/
theorem lookup_assocSet {α : Type} (d : List (String × α)) (k : String) (v : α) :
    (assocSet d k v).lookup k = some v := by
  induction d with
  | nil => simp [assocSet]
  | cons kv tl ih =>
    by_cases hk : kv.1 = k
    · simp [assocSet, hk]
    · have hstep : assocSet (kv :: tl) k v = kv :: assocSet tl k v := by
        unfold assocSet
        by_cases ht : tl.any (fun x => x.1 = k)
        · simp [ht, hk]
        · simp [ht, hk]
      rw [hstep, List.lookup]
      have : (k == kv.1) = false := by
        simp [beq_eq_false_iff_ne]
        exact fun he => hk he.symm
      rw [this]
      exact ih

/-- C1: for every dispatch whose URL resolves, the serialized request
body is exactly `json.dumps` of `{"inputs": inputs}` extended with a
`"parameters"` entry exactly when that argument is non-null and an
`"options"` entry exactly when that argument is non-null; an absent
argument's key does not occur in the body dict at all, and a present
one is bound to the supplied dict (never to null). -/
theorem c1_dispatcher_body_shape (c : NLP) (inputs : JsonVal) (parameters options : Option JDict)
    (model task : Option String) (net : Net) (url : String)
    (h : c.resolveUrl model task = .ok url) :
    (c.query inputs parameters options model task net).1 =
        [specRequest c url inputs parameters options] ∧
    (specRequest c url inputs parameters options).body =
        (JsonVal.obj (specBody inputs parameters options)).dumps ∧
    ("parameters" ∈ (specBody inputs parameters options).map Prod.fst ↔ parameters ≠ none) ∧
    ("options" ∈ (specBody inputs parameters options).map Prod.fst ↔ options ≠ none) ∧
    (∀ p, parameters = some p →
      (specBody inputs parameters options).lookup "parameters" = some (.obj p)) ∧
    (∀ o, options = some o →
      (specBody inputs parameters options).lookup "options" = some (.obj o)) := by
  refine ⟨?_, rfl, ?_, ?_, ?_, ?_⟩
  · rw [NLP.query_ok c inputs parameters options model task net url h]
  · cases parameters <;> cases options <;> simp [specBody, optEntry]
  · cases parameters <;> cases options <;> simp [specBody, optEntry]
  · intro p hp
    subst hp
    cases options <;> simp [specBody, optEntry, List.lookup]
  · intro o ho
    subst ho
    cases parameters <;> simp [specBody, optEntry, List.lookup]

/-- C1 witness: a concrete dispatch with `parameters` supplied and
`options` absent. -/
theorem c1_dispatcher_body_shape_witness :
    (testClient.query (.str "hi") (some [("p", .num 1)]) none none (some "fill-mask")
        (constNet 200 "[1]")).1 =
        [specRequest testClient "https://api/m1" (.str "hi") (some [("p", .num 1)]) none] ∧
    (specRequest testClient "https://api/m1" (.str "hi") (some [("p", .num 1)]) none).body =
        (JsonVal.obj (specBody (.str "hi") (some [("p", .num 1)]) none)).dumps ∧
    ("parameters" ∈ (specBody (.str "hi") (some [("p", .num 1)]) none).map Prod.fst ↔
        (some [("p", .num 1)] : Option JDict) ≠ none) ∧
    ("options" ∈ (specBody (.str "hi") (some [("p", .num 1)]) none).map Prod.fst ↔
        (none : Option JDict) ≠ none) ∧
    (∀ p, (some [("p", .num 1)] : Option JDict) = some p →
      (specBody (.str "hi") (some [("p", .num 1)]) none).lookup "parameters" = some (.obj p)) ∧
    (∀ o, (none : Option JDict) = some o →
      (specBody (.str "hi") (some [("p", .num 1)]) none).lookup "options" = some (.obj o)) :=
  c1_dispatcher_body_shape testClient (.str "hi") (some [("p", .num 1)]) none none
    (some "fill-mask") (constNet 200 "[1]") "https://api/m1" rfl

/-- C2 as stated is false on the code: line 17 tests only
`model is not None`, so an explicitly passed empty model is used
verbatim and the URL is `base_url + "/"`, not built from
`task_model_map[task]`. -/
theorem c2_counterexample :
    testClient.resolveUrl (some "") (some "fill-mask") = .ok "https://api/" ∧
    testClient.resolveUrl (some "") (some "fill-mask") ≠
      .ok ("https://api" ++ "/" ++ "m1") := by
  refine ⟨rfl, ?_⟩
  intro hcontra
  have : "https://api/" = "https://api" ++ "/" ++ "m1" := Except.ok.inj hcontra
  simp at this

/-- C2 amended: a non-`None` model (even the empty string) makes the
URL `base_url + "/" + model` verbatim regardless of the task, and the
request is sent to that URL; with no model, the URL is
`base_url + "/" + task_model_map[task]`. -/
theorem c2_amended_url_resolution (c : NLP) (m : String) (task : Option String)
    (t mt : String) (inputs : JsonVal) (parameters options : Option JDict) (net : Net)
    (h : c.config.TASK_MODEL_MAP.lookup t = some mt) :
    c.resolveUrl (some m) task = .ok (c.config.BASE_URL ++ "/" ++ m) ∧
    ((c.query inputs parameters options (some m) task net).1).map HttpRequest.url =
      [c.config.BASE_URL ++ "/" ++ m] ∧
    c.resolveUrl none (some t) = .ok (c.config.BASE_URL ++ "/" ++ mt) := by
  refine ⟨rfl, ?_, ?_⟩
  · rw [NLP.query_ok c inputs parameters options (some m) task net
      (c.config.BASE_URL ++ "/" ++ m) rfl]
    rfl
  · simp [NLP.resolveUrl, h]

/-- C2 amended witness: a concrete lookup for the no-model case and a
concrete explicit model. -/
theorem c2_amended_url_resolution_witness :
    testClient.resolveUrl (some "org/custom") (some "summarization") =
      .ok ("https://api" ++ "/" ++ "org/custom") ∧
    ((testClient.query (.str "x") none none (some "org/custom") (some "summarization")
        (constNet 200 "[]")).1).map HttpRequest.url = ["https://api" ++ "/" ++ "org/custom"] ∧
    testClient.resolveUrl none (some "fill-mask") = .ok ("https://api" ++ "/" ++ "m1") :=
  c2_amended_url_resolution testClient "org/custom" (some "summarization") "fill-mask" "m1"
    (.str "x") none none (constNet 200 "[]") rfl

/-- C3: for any response whose body parses as JSON, the dispatcher
returns exactly the parse of that body, unchanged, whatever the HTTP
status code is — a non-2xx status is never turned into an exception. -/
theorem c3_json_passthrough (c : NLP) (inputs : JsonVal) (parameters options : Option JDict)
    (model task : Option String) (url : String) (status : Nat) (body : String) (v : JsonVal)
    (hurl : c.resolveUrl model task = .ok url) (hparse : json_loads body = some v) :
    (c.query inputs parameters options model task (fun _ => ⟨status, body⟩)).2 =
      .ok v := by
  rw [NLP.query_ok c inputs parameters options model task _ url hurl]
  simp [hparse]

/-- C3 witness: a deeply nested body returned with status 500 is still
parsed and passed through. -/
theorem c3_json_passthrough_witness :
    json_loads "\x7b\"error\": [1, \x7b\"deep\": null\x7d], \"ok\": false\x7d" =
      some (.obj [("error", .arr [.num 1, .obj [("deep", .null)]]), ("ok", .bool false)]) ∧
    (testClient.query (.str "hi") none none none (some "fill-mask")
        (fun _ => ⟨500, "\x7b\"error\": [1, \x7b\"deep\": null\x7d], \"ok\": false\x7d"⟩)).2 =
      .ok (.obj [("error", .arr [.num 1, .obj [("deep", .null)]]), ("ok", .bool false)]) :=
  ⟨rfl, c3_json_passthrough testClient (.str "hi") none none none (some "fill-mask")
    "https://api/m1" 500 "\x7b\"error\": [1, \x7b\"deep\": null\x7d], \"ok\": false\x7d"
    (.obj [("error", .arr [.num 1, .obj [("deep", .null)]]), ("ok", .bool false)]) rfl rfl⟩

/-- C4: with no model and a task that is not a key of the
task-to-model map (including a `None` task), the dispatcher raises
`KeyError` and no HTTP request is sent. -/
theorem c4_lookup_error_before_send (c : NLP) (inputs : JsonVal)
    (parameters options : Option JDict) (task : Option String) (net : Net)
    (h : ∀ t, task = some t → c.config.TASK_MODEL_MAP.lookup t = none) :
    (c.query inputs parameters options none task net).1 = [] ∧
    ∃ k, (c.query inputs parameters options none task net).2 = .error (.keyError k) := by
  cases task with
  | none => exact ⟨rfl, "None", rfl⟩
  | some t =>
    have ht := h t rfl
    constructor
    · simp [NLP.query, NLP.resolveUrl, ht]
    · exact ⟨t, by simp [NLP.query, NLP.resolveUrl, ht]⟩

/-- C4 witness: a task missing from the concrete map, with no model. -/
theorem c4_lookup_error_before_send_witness :
    (testClient.query (.str "hi") none none none (some "translation")
        (constNet 200 "[]")).1 = [] ∧
    ∃ k, (testClient.query (.str "hi") none none none (some "translation")
        (constNet 200 "[]")).2 = .error (.keyError k) :=
  c4_lookup_error_before_send testClient (.str "hi") none none (some "translation")
    (constNet 200 "[]") (fun t ht => by cases ht; rfl)

/-- C5 fails on the code: line 92 calls `_query_in_df` without passing
`parameters`, so `summarization_in_df` behaves identically for every
value of its `parameters` argument, and the concrete call below — with
a non-null parameters mapping — sends a body whose serialization is
exactly `{"inputs": ["text1"]}`, containing no `"parameters"` key. -/
theorem c5_summarization_in_df_drops_parameters :
    (∀ (c : NLP) (df : DataFrame) (column : String) (parameters options : Option JDict)
        (model : Option String) (net : Net),
      c.summarization_in_df df column parameters options model net =
        c.summarization_in_df df column none options model net) ∧
    (testClient.summarization_in_df testDf "col" (some [("max_length", .num 10)]) none none
        (constNet 200 "[\x7b\"summary_text\": \"s\"\x7d]")).1 =
      [⟨"POST", "https://api/m2", [("Authorization", "Bearer tok")],
        "\x7b\"inputs\": [\"text1\"]\x7d"⟩] :=
  ⟨fun _ _ _ _ _ _ _ => rfl, rfl⟩

/-- When the column exists and the URL resolves, `_query_in_df` sends
the column values as the `inputs` list. -/
theorem NLP.query_in_df_ok (c : NLP) (df : DataFrame) (column : String)
    (parameters options : Option JDict) (model task : Option String) (net : Net)
    (colVals : List JsonVal) (url : String)
    (hcol : df.cols.lookup column = some colVals)
    (hurl : c.resolveUrl model task = .ok url) :
    c.query_in_df df column parameters options model task net =
      ([specRequest c url (.arr colVals) parameters options],
        match json_loads (net (specRequest c url (.arr colVals) parameters options)).content with
        | some v => .ok v
        | none => .error .jsonDecodeError) := by
  unfold NLP.query_in_df
  rw [hcol]
  exact NLP.query_ok c (.arr colVals) parameters options model task net url hurl

/-- Each response row shaped `[{key: s, ...}, ...]` extracts its first
element's `key` field in the comprehension. -/
theorem mapPy_extract_first (key : String) :
    ∀ ps seqs : List JsonVal,
      List.Forall₂ (fun p s => ∃ f rest, p = JsonVal.arr (JsonVal.obj f :: rest) ∧
        f.lookup key = some s) ps seqs →
      mapPy (fun p => Except.bind (pyIndexZero p) (fun x => pySubscript x key)) ps =
        .ok seqs := by
  intro ps seqs h
  induction h with
  | nil => rfl
  | @cons a b l1 l2 hps htl ih =>
    obtain ⟨f, rest, rfl, hf⟩ := hps
    have hx : Except.bind (pyIndexZero (JsonVal.arr (JsonVal.obj f :: rest)))
        (fun x => pySubscript x key) = Except.ok b := by
      simp [pyIndexZero, pySubscript, hf, Except.bind]
    show (match Except.bind (pyIndexZero (JsonVal.arr (JsonVal.obj f :: rest)))
        (fun x => pySubscript x key) with
      | .error e => .error e
      | .ok v =>
        match mapPy (fun p => Except.bind (pyIndexZero p) (fun x => pySubscript x key)) l1 with
        | .error e => .error e
        | .ok vs => Except.ok (v :: vs)) = Except.ok (b :: l2)
    rw [hx, ih]

/-- C6: zero-shot classification inserts `candidate_labels` into the
caller-supplied dict in place — after the call the caller's mapping
binds `candidate_labels` to the given list — and the request body's
`parameters` is exactly that mutated dict; with the argument omitted,
the (initially empty) default dict is used, so the body's `parameters`
is exactly `{"candidate_labels": labels}`. -/
theorem c6_zero_shot_mutation (c : NLP) (text : JsonVal) (labels : List JsonVal)
    (d : JDict) (options : Option JDict) (model : Option String) (net : Net) (url : String)
    (hurl : c.resolveUrl model (some "zero-shot-classification") = .ok url) :
    (c.zero_shot_classification text labels (.given d) options model
        ZsDefault.initial net).callerParams =
      some (assocSet d "candidate_labels" (.arr labels)) ∧
    (assocSet d "candidate_labels" (.arr labels)).lookup "candidate_labels" =
      some (.arr labels) ∧
    (c.zero_shot_classification text labels (.given d) options model
        ZsDefault.initial net).trace =
      [specRequest c url text (some (assocSet d "candidate_labels" (.arr labels))) options] ∧
    (c.zero_shot_classification text labels .omitted options model
        ZsDefault.initial net).trace =
      [specRequest c url text (some [("candidate_labels", .arr labels)]) options] := by
  refine ⟨?_, lookup_assocSet d _ _, ?_, ?_⟩
  · simp [NLP.zero_shot_classification]
  · simp [NLP.zero_shot_classification,
      NLP.query_ok c text (some (assocSet d "candidate_labels" (.arr labels))) options model
        (some "zero-shot-classification") net url hurl]
  · have hinit : assocSet ZsDefault.initial.val "candidate_labels" (JsonVal.arr labels) =
        [("candidate_labels", .arr labels)] := by
      simp [ZsDefault.initial, assocSet]
    simp [NLP.zero_shot_classification, hinit,
      NLP.query_ok c text (some [("candidate_labels", .arr labels)]) options model
        (some "zero-shot-classification") net url hurl]

/-- C6 witness: a concrete call with a caller dict and with the
argument omitted. -/
theorem c6_zero_shot_mutation_witness :
    (testClient.zero_shot_classification (.str "t") [.str "a", .str "b"]
        (.given [("multi_label", .bool true)]) none none
        ZsDefault.initial (constNet 200 "[]")).callerParams =
      some (assocSet ([("multi_label", JsonVal.bool true)] : JDict) "candidate_labels"
        (.arr [.str "a", .str "b"])) ∧
    (assocSet ([("multi_label", JsonVal.bool true)] : JDict) "candidate_labels"
        (.arr [.str "a", .str "b"])).lookup "candidate_labels" =
      some (.arr [.str "a", .str "b"]) ∧
    (testClient.zero_shot_classification (.str "t") [.str "a", .str "b"]
        (.given [("multi_label", .bool true)]) none none
        ZsDefault.initial (constNet 200 "[]")).trace =
      [specRequest testClient "https://api/m3" (.str "t")
        (some (assocSet ([("multi_label", JsonVal.bool true)] : JDict) "candidate_labels"
          (.arr [.str "a", .str "b"]))) none] ∧
    (testClient.zero_shot_classification (.str "t") [.str "a", .str "b"]
        .omitted none none ZsDefault.initial (constNet 200 "[]")).trace =
      [specRequest testClient "https://api/m3" (.str "t")
        (some [("candidate_labels", JsonVal.arr [.str "a", .str "b"])]) none] :=
  c6_zero_shot_mutation testClient (.str "t") [.str "a", .str "b"]
    [("multi_label", .bool true)] none none (constNet 200 "[]") "https://api/m3" rfl

/-- C7: tabular fill-mask.  Batched response (a sequence of
sequences): the `predictions` column receives one value per response
row — the `sequence` field of that row's first candidate — with as
many rows as the response.  Flat response: the column receives the
single value `predictions[0]['sequence']`, one row regardless of the
table's original row count. -/
theorem c7_fill_mask_in_df_shapes (c : NLP) (df : DataFrame) (column : String)
    (options : Option JDict) (model : Option String) (net : Net) (url : String)
    (colVals : List JsonVal)
    (hcol : df.cols.lookup column = some colVals)
    (hurl : c.resolveUrl model (some "fill-mask") = .ok url) :
    (∀ ps seqs,
      json_loads (net (specRequest c url (.arr colVals) none options)).content =
        some (.arr ps) →
      ps ≠ [] →
      List.Forall₂ (fun p s => ∃ f rest, p = JsonVal.arr (JsonVal.obj f :: rest) ∧
        f.lookup "sequence" = some s) ps seqs →
      c.fill_mask_in_df df column options model net =
        ([specRequest c url (.arr colVals) none options],
          .ok (df.setCol "predictions" seqs)) ∧
      seqs.length = ps.length) ∧
    (∀ ps f rest s,
      json_loads (net (specRequest c url (.arr colVals) none options)).content =
        some (.arr ps) →
      (∀ p ∈ ps, p.isList = false) →
      ps = JsonVal.obj f :: rest →
      f.lookup "sequence" = some s →
      c.fill_mask_in_df df column options model net =
        ([specRequest c url (.arr colVals) none options],
          .ok (df.setCol "predictions" [s]))) := by
  constructor
  · intro ps seqs hresp hne hshape
    have hmap := mapPy_extract_first "sequence" ps seqs hshape
    have hlen := hshape.length_eq
    have hany : ps.any JsonVal.isList = true := by
      cases hshape with
      | nil => exact absurd rfl hne
      | cons hp _ =>
        obtain ⟨f, rest, hpe, _⟩ := hp
        subst hpe
        simp [JsonVal.isList]
    refine ⟨?_, hlen.symm⟩
    unfold NLP.fill_mask_in_df
    rw [NLP.query_in_df_ok c df column none options model (some "fill-mask") net colVals url
      hcol hurl, hresp]
    simp [hany, hmap]
  · intro ps f rest s hresp hflat hps hf
    have hany : ps.any JsonVal.isList = false := by
      rw [List.any_eq_false]
      intro p hp
      simp [hflat p hp]
    unfold NLP.fill_mask_in_df
    rw [NLP.query_in_df_ok c df column none options model (some "fill-mask") net colVals url
      hcol hurl, hresp]
    subst hps
    simp [hany, pyIndexZero, pySubscript, hf, Except.bind]

/-- C7 witness: a three-row table with a batched response yields a
three-row predictions column; a one-row table with a flat two-element
response yields a one-row predictions column from the first element. -/
theorem c7_fill_mask_in_df_shapes_witness :
    (testClient.fill_mask_in_df testDf3 "col" none none
        (constNet 200 "[[\x7b\"sequence\": \"s1\"\x7d], [\x7b\"sequence\": \"s2\"\x7d], [\x7b\"sequence\": \"s3\"\x7d]]") =
      ([specRequest testClient "https://api/m1" (.arr [.str "a", .str "b", .str "c"]) none none],
        .ok (testDf3.setCol "predictions" [.str "s1", .str "s2", .str "s3"])) ∧
      ([JsonVal.str "s1", JsonVal.str "s2", JsonVal.str "s3"] : List JsonVal).length =
        ([JsonVal.arr [JsonVal.obj [("sequence", JsonVal.str "s1")]],
          JsonVal.arr [JsonVal.obj [("sequence", JsonVal.str "s2")]],
          JsonVal.arr [JsonVal.obj [("sequence", JsonVal.str "s3")]]] : List JsonVal).length) ∧
    (testClient.fill_mask_in_df testDf "col" none none
        (constNet 200 "[\x7b\"sequence\": \"s0\"\x7d, \x7b\"sequence\": \"alt\"\x7d]") =
      ([specRequest testClient "https://api/m1" (.arr [.str "text1"]) none none],
        .ok (testDf.setCol "predictions" [.str "s0"]))) :=
  ⟨(c7_fill_mask_in_df_shapes testClient testDf3 "col" none none
      (constNet 200 "[[\x7b\"sequence\": \"s1\"\x7d], [\x7b\"sequence\": \"s2\"\x7d], [\x7b\"sequence\": \"s3\"\x7d]]")
      "https://api/m1" [.str "a", .str "b", .str "c"] rfl rfl).1
    [JsonVal.arr [JsonVal.obj [("sequence", JsonVal.str "s1")]],
     JsonVal.arr [JsonVal.obj [("sequence", JsonVal.str "s2")]],
     JsonVal.arr [JsonVal.obj [("sequence", JsonVal.str "s3")]]]
    [JsonVal.str "s1", JsonVal.str "s2", JsonVal.str "s3"]
    rfl (List.cons_ne_nil _ _)
    (List.Forall₂.cons ⟨[("sequence", JsonVal.str "s1")], [], rfl, rfl⟩
      (List.Forall₂.cons ⟨[("sequence", JsonVal.str "s2")], [], rfl, rfl⟩
        (List.Forall₂.cons ⟨[("sequence", JsonVal.str "s3")], [], rfl, rfl⟩
          List.Forall₂.nil))),
   (c7_fill_mask_in_df_shapes testClient testDf "col" none none
      (constNet 200 "[\x7b\"sequence\": \"s0\"\x7d, \x7b\"sequence\": \"alt\"\x7d]")
      "https://api/m1" [.str "text1"] rfl rfl).2
    [JsonVal.obj [("sequence", JsonVal.str "s0")], JsonVal.obj [("sequence", JsonVal.str "alt")]]
    [("sequence", JsonVal.str "s0")] [JsonVal.obj [("sequence", JsonVal.str "alt")]]
    (JsonVal.str "s0") rfl (by decide) rfl rfl⟩

/-- C8 as stated is false on the code: the only header the dispatcher
sets is `Authorization` (lines 19-21); no header implying JSON content
is sent — `requests.request` is passed a pre-serialized string via
`data=`, which sets no content-type header. -/
theorem c8_counterexample :
    ((testClient.query (.str "hi") none none none (some "fill-mask")
        (constNet 200 "[]")).1).map HttpRequest.headers =
      [[("Authorization", "Bearer tok")]] ∧
    "Content-Type" ∉ ([("Authorization", "Bearer tok")] : List (String × String)).map Prod.fst ∧
    "content-type" ∉ ([("Authorization", "Bearer tok")] : List (String × String)).map Prod.fst :=
  ⟨rfl, by decide, by decide⟩

/-- C8 amended: every dispatched request is a single POST whose header
list is exactly `[Authorization: Bearer <token>]` — no content-type
header — with the JSON-serialized envelope as body. -/
theorem c8_amended_post_shape (c : NLP) (inputs : JsonVal) (parameters options : Option JDict)
    (model task : Option String) (net : Net) (url : String)
    (h : c.resolveUrl model task = .ok url) :
    (c.query inputs parameters options model task net).1 =
      [⟨"POST", url, [("Authorization", "Bearer " ++ c.api_token)],
        (JsonVal.obj (specBody inputs parameters options)).dumps⟩] ∧
    "Content-Type" ∉
      ([("Authorization", "Bearer " ++ c.api_token)] : List (String × String)).map Prod.fst := by
  constructor
  · rw [NLP.query_ok c inputs parameters options model task net url h]
    rfl
  · simp

/-- C8 amended witness: a concrete dispatch. -/
theorem c8_amended_post_shape_witness :
    (testClient.query (.str "hi") none none none (some "fill-mask")
        (constNet 200 "[]")).1 =
      [⟨"POST", "https://api/m1", [("Authorization", "Bearer " ++ testClient.api_token)],
        (JsonVal.obj (specBody (.str "hi") none none)).dumps⟩] ∧
    "Content-Type" ∉
      ([("Authorization", "Bearer " ++ testClient.api_token)] : List (String × String)).map
        Prod.fst :=
  c8_amended_post_shape testClient (.str "hi") none none none (some "fill-mask")
    (constNet 200 "[]") "https://api/m1" rfl

/-- C9: no sequence of task-method or tabular-adapter calls changes
the client object: its api token and its configuration stay exactly
those fixed at construction. -/
theorem c9_client_immutable (net : Net) (st : SessionState) (calls : List ApiCall) :
    (runCalls net st calls).client = st.client := by
  induction calls generalizing st with
  | nil => rfl
  | cons c cs ih =>
    have hstep : (runCall net st c).1.client = st.client := by
      cases c <;> rfl
    rw [runCalls, ih, hstep]

/-- C10: an explicit `None` parameters makes zero-shot classification
raise `TypeError` at the `candidate_labels` insertion, before any
request body is built or request sent, leaving the shared default dict
and all other state untouched; only an omitted argument uses — and
mutates, persistently across calls — the single shared default dict. -/
theorem c10_zero_shot_none_raises (c : NLP) (text : JsonVal) (labels : List JsonVal)
    (options : Option JDict) (model : Option String) (st : ZsDefault) (net : Net) :
    c.zero_shot_classification text labels .noneArg options model st net =
      ⟨st, none, [], .error .typeError⟩ ∧
    (c.zero_shot_classification text labels .omitted options model st net).zsDefault.val =
      assocSet st.val "candidate_labels" (.arr labels) := by
  constructor
  · rfl
  · simp [NLP.zero_shot_classification]
